import Mathlib

/-!
Verification of the pydantic-version compatibility facade (`ai_compat.py`).

The module is a two-branch dispatch layer: every operation reads the
module-level flag `PYDANTIC_V2` (computed once at import from the installed
library's version string) and delegates to the v2-generation or
v1-generation method of the underlying validation library.

Shallow embedding conventions:

* Python scalar values handled by the facade are `PyVal`; the library's
  internal "no default" sentinel (`PydanticUndefined` in v2) is the extra
  constructor `MaybeUndef.undef`.
* The underlying validation library (pydantic) is not part of this
  repository; its methods (`model_validate`, `model_dump`, `parse_obj`,
  `dict`, `schema`, ...) are modelled from the specification's description
  of their behaviour, in the namespaces `PydanticV2` and `PydanticV1`.
* The facade's own functions are translated directly from `ai_compat.py`
  and keep its names; the global flag is passed explicitly as the
  `pydantic_v2 : Bool` argument.
* `print` output is modelled as an explicit `List String` trace; module
  initialisation (`moduleInit`) returns the state holding the flag together
  with the trace it wrote.
-/

set_option autoImplicit false

namespace AiCompat

/-- Python scalar values that flow through the facade's mappings. -/
inductive PyVal where
  | none
  | int (n : Int)
  | str (s : String)
  | bool (b : Bool)
  deriving DecidableEq, Repr

/-- A value that may instead be the library's internal "undefined" sentinel
(pydantic v2's PydanticUndefined). -/
inductive MaybeUndef where
  | undef
  | val (v : PyVal)
  deriving DecidableEq, Repr

/-- Field-metadata record attached to a model definition: its declared
default, where `MaybeUndef.undef` means no default was declared. -/
structure FieldInfo where
  default : MaybeUndef
  deriving DecidableEq, Repr

/-- A model type: its ordered field declarations (name, metadata). -/
structure ModelType where
  fields : List (String × FieldInfo)
  deriving DecidableEq, Repr

/-- A validated model instance: its type, its field values in declaration
order, and the names of the fields that were explicitly set by the input
(the library's fields-set tracking used by exclude_unset). -/
structure ModelInst where
  type : ModelType
  vals : List (String × PyVal)
  fieldsSet : List String
  deriving DecidableEq, Repr

/-- Errors raised by the underlying library: validation errors for
non-mapping input or a missing required field, and a JSON-decode error. -/
inductive PErr where
  | notADict
  | missingField (name : String)
  | jsonDecode
  deriving DecidableEq, Repr

/-- An arbitrary Python object given to a parse operation: a mapping or a
non-mapping scalar. -/
inductive PyObj where
  | dict (entries : List (String × PyVal))
  | scalar (v : PyVal)
  deriving DecidableEq, Repr

/-- First value bound to `name` in an association list (Python dict lookup
for the key sets built here, which have distinct keys). -/
def lookupKey {α : Type} : List (String × α) → String → Option α
  | [], _ => Option.none
  | (k, v) :: rest, name => if k = name then Option.some v else lookupKey rest name

/-- JSON documents, modelling the text produced and consumed by the JSON
operations (textual rendering and its whitespace, hence the `indent`
argument, are abstracted away). -/
inductive Json where
  | null
  | num (n : Int)
  | str (s : String)
  | bool (b : Bool)
  | arr (items : List Json)
  | obj (entries : List (String × Json))

/-- JSON form of a Python scalar value. -/
def pyToJson : PyVal → Json
  | PyVal.none => Json.null
  | PyVal.int n => Json.num n
  | PyVal.str s => Json.str s
  | PyVal.bool b => Json.bool b

/-- Python scalar value of a JSON leaf; composite JSON values are outside
the scalar universe modelled here. -/
def jsonToPy : Json → Option PyVal
  | Json.null => Option.some PyVal.none
  | Json.num n => Option.some (PyVal.int n)
  | Json.str s => Option.some (PyVal.str s)
  | Json.bool b => Option.some (PyVal.bool b)
  | Json.arr _ => Option.none
  | Json.obj _ => Option.none

/-- Decode every value of a JSON object's entry list. -/
def jsonEntriesToPy : List (String × Json) → Option (List (String × PyVal))
  | [] => Option.some []
  | (k, j) :: rest =>
    match jsonToPy j, jsonEntriesToPy rest with
    | Option.some v, Option.some vs => Option.some ((k, v) :: vs)
    | _, _ => Option.none

/-- Modelled from the spec: the shared validation core of pydantic's
`model_validate` (v2) and `parse_obj` (v1), which are not part of this
repository. For each declared field in order: take the input's value when
the key is present (marking the field as set), fall back to the declared
default when absent, and fail with a validation error when a required
field is missing. Returns (values, set field names). -/
def validateFields (entries : List (String × PyVal)) :
    List (String × FieldInfo) → Except PErr (List (String × PyVal) × List String)
  | [] => Except.ok ([], [])
  | (name, fi) :: rest =>
    match lookupKey entries name with
    | Option.some v =>
      match validateFields entries rest with
      | Except.ok (vs, set) => Except.ok ((name, v) :: vs, name :: set)
      | Except.error e => Except.error e
    | Option.none =>
      match fi.default with
      | MaybeUndef.val d =>
        match validateFields entries rest with
        | Except.ok (vs, set) => Except.ok ((name, d) :: vs, set)
        | Except.error e => Except.error e
      | MaybeUndef.undef => Except.error (PErr.missingField name)

/-- Modelled from the spec: validation of an arbitrary object against a
model type; non-mapping input is rejected by the library with a validation
error. -/
def validateObj (M : ModelType) (value : PyObj) : Except PErr ModelInst :=
  match value with
  | PyObj.dict entries =>
    match validateFields entries M.fields with
    | Except.ok (vs, set) => Except.ok { type := M, vals := vs, fieldsSet := set }
    | Except.error e => Except.error e
  | PyObj.scalar _ => Except.error PErr.notADict

/-- Declared default of the named field, undefined when the field is not
declared or has no default. -/
def declaredDefault (fields : List (String × FieldInfo)) (name : String) : MaybeUndef :=
  match lookupKey fields name with
  | Option.some fi => fi.default
  | Option.none => MaybeUndef.undef

/-- Modelled from the spec: the shared dumping core of pydantic's
`model_dump` (v2) and `dict` (v1): field values in declaration order,
dropping excluded fields, unset fields when `exclude_unset`, and fields
equal to their declared default when `exclude_defaults`. `exclude = []`
models passing no exclusion set (`None`). -/
def dumpEntries (m : ModelInst) (exclude : List String)
    (exclude_unset : Bool) (exclude_defaults : Bool) : List (String × PyVal) :=
  m.vals.filter fun e =>
    !(exclude.contains e.1)
      && (!exclude_unset || m.fieldsSet.contains e.1)
      && (!exclude_defaults || !(declaredDefault m.type.fields e.1 == MaybeUndef.val e.2))

namespace PydanticV2

/-- Modelled from the spec: pydantic v2's `FieldInfo.get_default`, which
returns the declared default or the `PydanticUndefined` sentinel. -/
def fieldInfo_get_default (field : FieldInfo) : MaybeUndef :=
  field.default

/-- Modelled from the spec: pydantic v2's `FieldInfo.is_required`, true
exactly when no default is declared. -/
def fieldInfo_is_required (field : FieldInfo) : Bool :=
  field.default == MaybeUndef.undef

/-- Modelled from the spec: pydantic v2's `BaseModel.model_validate`. -/
def model_validate (M : ModelType) (value : PyObj) : Except PErr ModelInst :=
  validateObj M value

/-- Modelled from the spec: pydantic v2's `BaseModel.model_dump`. -/
def model_dump (m : ModelInst) (exclude : List String)
    (exclude_unset : Bool) (exclude_defaults : Bool) : List (String × PyVal) :=
  dumpEntries m exclude exclude_unset exclude_defaults

/-- Modelled from the spec: pydantic v2's `BaseModel.model_dump_json`;
`indent` only changes the rendered text's whitespace, which the `Json`
document abstracts away. -/
def model_dump_json (m : ModelInst) (indent : Option Nat) : Json :=
  let _ := indent
  Json.obj ((dumpEntries m [] false false).map fun e => (e.1, pyToJson e.2))

/-- Modelled from the spec: pydantic v2's `BaseModel.model_validate_json`:
decode the JSON document to a Python object, then validate it. -/
def model_validate_json (M : ModelType) (data : Json) : Except PErr ModelInst :=
  match data with
  | Json.obj l =>
    match jsonEntriesToPy l with
    | Option.some entries => validateObj M (PyObj.dict entries)
    | Option.none => Except.error PErr.jsonDecode
  | Json.null => validateObj M (PyObj.scalar PyVal.none)
  | Json.num n => validateObj M (PyObj.scalar (PyVal.int n))
  | Json.str s => validateObj M (PyObj.scalar (PyVal.str s))
  | Json.bool b => validateObj M (PyObj.scalar (PyVal.bool b))
  | Json.arr _ => Except.error PErr.jsonDecode

/-- Modelled from the spec: pydantic v2's `BaseModel.model_fields`. -/
def model_fields (M : ModelType) : List (String × FieldInfo) :=
  M.fields

/-- Modelled from the spec: pydantic v2's `BaseModel.model_copy`; a copy
(shallow or deep) is an instance with the same field values. -/
def model_copy (m : ModelInst) (deep : Bool) : ModelInst :=
  let _ := deep
  m

/-- Modelled from the spec: pydantic v2's `BaseModel.model_json_schema`:
a mapping with a "properties" key naming every declared field and a
"required" key listing the required ones. -/
def model_json_schema (M : ModelType) : List (String × Json) :=
  [("type", Json.str "object"),
   ("properties", Json.obj (M.fields.map fun f => (f.1, Json.obj []))),
   ("required", Json.arr ((M.fields.filter fun f =>
      f.2.default == MaybeUndef.undef).map fun f => Json.str f.1))]

end PydanticV2

namespace PydanticV1

/-- Modelled from the spec: pydantic v1's `FieldInfo.get_default`, which
returns the declared default, or `None` when there is none (v1 never hands
back its internal sentinel here). -/
def field_get_default (field : FieldInfo) : MaybeUndef :=
  match field.default with
  | MaybeUndef.undef => MaybeUndef.val PyVal.none
  | MaybeUndef.val v => MaybeUndef.val v

/-- Modelled from the spec: pydantic v1's `FieldInfo.required` attribute. -/
def field_required (field : FieldInfo) : Bool :=
  field.default == MaybeUndef.undef

/-- Modelled from the spec: pydantic v1's `BaseModel.parse_obj`. -/
def parse_obj (M : ModelType) (value : PyObj) : Except PErr ModelInst :=
  validateObj M value

/-- Modelled from the spec: pydantic v1's `BaseModel.dict`. -/
def dict (m : ModelInst) (exclude : List String)
    (exclude_unset : Bool) (exclude_defaults : Bool) : List (String × PyVal) :=
  dumpEntries m exclude exclude_unset exclude_defaults

/-- Modelled from the spec: pydantic v1's `BaseModel.json`; `indent` only
changes the rendered text's whitespace. -/
def json (m : ModelInst) (indent : Option Nat) : Json :=
  let _ := indent
  Json.obj ((dumpEntries m [] false false).map fun e => (e.1, pyToJson e.2))

/-- Modelled from the spec: pydantic v1's `BaseModel.parse_raw`: decode the
JSON document, then validate the decoded object. -/
def parse_raw (M : ModelType) (data : Json) : Except PErr ModelInst :=
  match data with
  | Json.obj l =>
    match jsonEntriesToPy l with
    | Option.some entries => validateObj M (PyObj.dict entries)
    | Option.none => Except.error PErr.jsonDecode
  | Json.null => validateObj M (PyObj.scalar PyVal.none)
  | Json.num n => validateObj M (PyObj.scalar (PyVal.int n))
  | Json.str s => validateObj M (PyObj.scalar (PyVal.str s))
  | Json.bool b => validateObj M (PyObj.scalar (PyVal.bool b))
  | Json.arr _ => Except.error PErr.jsonDecode

/-- Modelled from the spec: pydantic v1's `BaseModel.__fields__`. -/
def fields (M : ModelType) : List (String × FieldInfo) :=
  M.fields

/-- Modelled from the spec: pydantic v1's `BaseModel.copy`. -/
def copy (m : ModelInst) (deep : Bool) : ModelInst :=
  let _ := deep
  m

/-- Modelled from the spec: pydantic v1's `BaseModel.schema`, same mapping
shape as the v2 generation's schema. -/
def schema (M : ModelType) : List (String × Json) :=
  [("type", Json.str "object"),
   ("properties", Json.obj (M.fields.map fun f => (f.1, Json.obj []))),
   ("required", Json.arr ((M.fields.filter fun f =>
      f.2.default == MaybeUndef.undef).map fun f => Json.str f.1))]

end PydanticV1

/-- Python's str.startswith, as an executable character-prefix test. -/
def strStartsWith (s pre : String) : Bool :=
  pre.data.isPrefixOf s.data

/-- Facade, `ai_compat.py` line 17: `PYDANTIC_V2 = pydantic.VERSION.startswith("2.")`. -/
def PYDANTIC_V2 (version : String) : Bool :=
  strStartsWith version "2."

/-- Facade, lines 64-70: `validate_pydantic_version` prints which library
generation is in use and returns the flag; the printed line is the second
component. -/
def validate_pydantic_version (pydantic_v2 : Bool) : Bool × List String :=
  (pydantic_v2,
   [if pydantic_v2 then "Pydantic v2 is detected and in use."
    else "Pydantic v1 is detected and in use."])

/-- Module state after import: the one module-level flag. -/
structure ModuleState where
  pydantic_v2 : Bool
  deriving DecidableEq, Repr

/-- Module initialisation, lines 17 and 72: compute the flag from the
installed version string, then call `validate_pydantic_version()`.
Returns the resulting state and the text written to standard output. -/
def moduleInit (version : String) : ModuleState × List String :=
  let flag := PYDANTIC_V2 version
  let r := validate_pydantic_version flag
  ({ pydantic_v2 := flag }, r.2)

/-- Facade, lines 84-89: `parse_obj` dispatches on the flag between
v2 `model_validate` and v1 `parse_obj`. -/
def parse_obj (pydantic_v2 : Bool) (model : ModelType) (value : PyObj) :
    Except PErr ModelInst :=
  if pydantic_v2 then PydanticV2.model_validate model value
  else PydanticV1.parse_obj model value

/-- Facade, lines 91-95: `field_is_required`. -/
def field_is_required (pydantic_v2 : Bool) (field : FieldInfo) : Bool :=
  if pydantic_v2 then PydanticV2.fieldInfo_is_required field
  else PydanticV1.field_required field

/-- Facade, lines 97-105: `field_get_default` calls the field's
`get_default()` method (whichever generation's method is installed), then
under v2 normalises the `PydanticUndefined` sentinel to `None`. -/
def field_get_default (pydantic_v2 : Bool) (field : FieldInfo) : MaybeUndef :=
  let value :=
    if pydantic_v2 then PydanticV2.fieldInfo_get_default field
    else PydanticV1.field_get_default field
  if pydantic_v2 then
    if value == MaybeUndef.undef then MaybeUndef.val PyVal.none
    else value
  else value

/-- Facade, lines 119-123: `get_model_fields`. -/
def get_model_fields (pydantic_v2 : Bool) (model : ModelType) :
    List (String × FieldInfo) :=
  if pydantic_v2 then PydanticV2.model_fields model
  else PydanticV1.fields model

/-- Facade, lines 125-129: `model_copy`. -/
def model_copy (pydantic_v2 : Bool) (model : ModelInst) (deep : Bool) : ModelInst :=
  if pydantic_v2 then PydanticV2.model_copy model deep
  else PydanticV1.copy model deep

/-- Facade, lines 131-135: `model_json` (no exclusion arguments are
accepted or forwarded; only `indent`). -/
def model_json (pydantic_v2 : Bool) (model : ModelInst) (indent : Option Nat) : Json :=
  if pydantic_v2 then PydanticV2.model_dump_json model indent
  else PydanticV1.json model indent

/-- Facade, lines 137-155: `model_dump` forwards the exclusion options. -/
def model_dump (pydantic_v2 : Bool) (model : ModelInst) (exclude : List String)
    (exclude_unset : Bool) (exclude_defaults : Bool) : List (String × PyVal) :=
  if pydantic_v2 then PydanticV2.model_dump model exclude exclude_unset exclude_defaults
  else PydanticV1.dict model exclude exclude_unset exclude_defaults

/-- Facade, lines 157-161: `model_parse`. -/
def model_parse (pydantic_v2 : Bool) (model : ModelType) (data : PyObj) :
    Except PErr ModelInst :=
  if pydantic_v2 then PydanticV2.model_validate model data
  else PydanticV1.parse_obj model data

/-- Facade, lines 163-167: `model_parse_json`. -/
def model_parse_json (pydantic_v2 : Bool) (model : ModelType) (data : Json) :
    Except PErr ModelInst :=
  if pydantic_v2 then PydanticV2.model_validate_json model data
  else PydanticV1.parse_raw model data

/-- Facade, lines 169-173: `model_json_schema`. -/
def model_json_schema (pydantic_v2 : Bool) (model : ModelType) : List (String × Json) :=
  if pydantic_v2 then PydanticV2.model_json_schema model
  else PydanticV1.schema model

/-- Modelled from the spec: the standard library's cached-property
descriptor read on an instance: return the stored value when one is
present, otherwise run the computing function once and store its result.
The triple is (value produced, stored slot after the access, number of
times the computing function ran during this access). -/
def stdlibCachedGet {σ α : Type} (func : σ → α) (inst : σ) (cache : Option α) :
    α × Option α × Nat :=
  match cache with
  | Option.some v => (v, Option.some v, 0)
  | Option.none => (func inst, Option.some (func inst), 1)

/-- Modelled from the spec: the third-party fallback package's descriptor,
behaviourally equivalent to the standard library's. -/
def fallbackCachedGet {σ α : Type} (func : σ → α) (inst : σ) (cache : Option α) :
    α × Option α × Nat :=
  match cache with
  | Option.some v => (v, Option.some v, 0)
  | Option.none => (func inst, Option.some (func inst), 1)

/-- Facade, lines 208-213: `cached_property` is the standard library's
descriptor when its import succeeds, otherwise the third-party fallback. -/
def cached_property {σ α : Type} (stdlibAvailable : Bool) :
    (σ → α) → σ → Option α → α × Option α × Nat :=
  if stdlibAvailable then stdlibCachedGet else fallbackCachedGet

/-- Cache slot and total computation count after n successive accesses on
the same instance, starting from an empty slot. -/
def accessTimes {σ α : Type} (stdlibAvailable : Bool) (func : σ → α) (inst : σ) :
    Nat → Option α × Nat
  | 0 => (Option.none, 0)
  | n + 1 =>
    let p := accessTimes stdlibAvailable func inst n
    let r := cached_property stdlibAvailable func inst p.1
    (r.2.1, p.2 + r.2.2)

/-- One call to a dispatching operation of the facade, with its arguments. -/
inductive FacadeOp where
  | opParseObj (model : ModelType) (value : PyObj)
  | opFieldIsRequired (field : FieldInfo)
  | opFieldGetDefault (field : FieldInfo)
  | opGetModelFields (model : ModelType)
  | opModelCopy (model : ModelInst) (deep : Bool)
  | opModelJson (model : ModelInst) (indent : Option Nat)
  | opModelDump (model : ModelInst) (exclude : List String)
      (exclude_unset : Bool) (exclude_defaults : Bool)
  | opModelParse (model : ModelType) (data : PyObj)
  | opModelParseJson (model : ModelType) (data : Json)
  | opModelJsonSchema (model : ModelType)

/-- Return value of a facade operation. -/
inductive OpResult where
  | rBool (b : Bool)
  | rMaybe (v : MaybeUndef)
  | rInst (r : Except PErr ModelInst)
  | rFields (fs : List (String × FieldInfo))
  | rModel (m : ModelInst)
  | rDict (d : List (String × PyVal))
  | rJson (j : Json)
  | rSchema (s : List (String × Json))

/-- Run one facade operation against the module state. Each operation of
`ai_compat.py` only reads the module-level flag, assigns nothing, and
prints nothing, so the translation returns the result together with the
state after the call and the text written to standard output. -/
def runOp (s : ModuleState) (op : FacadeOp) : OpResult × ModuleState × List String :=
  match op with
  | FacadeOp.opParseObj model value =>
    (OpResult.rInst (parse_obj s.pydantic_v2 model value), s, [])
  | FacadeOp.opFieldIsRequired field =>
    (OpResult.rBool (field_is_required s.pydantic_v2 field), s, [])
  | FacadeOp.opFieldGetDefault field =>
    (OpResult.rMaybe (field_get_default s.pydantic_v2 field), s, [])
  | FacadeOp.opGetModelFields model =>
    (OpResult.rFields (get_model_fields s.pydantic_v2 model), s, [])
  | FacadeOp.opModelCopy model deep =>
    (OpResult.rModel (model_copy s.pydantic_v2 model deep), s, [])
  | FacadeOp.opModelJson model indent =>
    (OpResult.rJson (model_json s.pydantic_v2 model indent), s, [])
  | FacadeOp.opModelDump model exclude eu ed =>
    (OpResult.rDict (model_dump s.pydantic_v2 model exclude eu ed), s, [])
  | FacadeOp.opModelParse model data =>
    (OpResult.rInst (model_parse s.pydantic_v2 model data), s, [])
  | FacadeOp.opModelParseJson model data =>
    (OpResult.rInst (model_parse_json s.pydantic_v2 model data), s, [])
  | FacadeOp.opModelJsonSchema model =>
    (OpResult.rSchema (model_json_schema s.pydantic_v2 model), s, [])

/-- Module state after a sequence of facade operations. -/
def runOps (s : ModuleState) (ops : List FacadeOp) : ModuleState :=
  ops.foldl (fun st op => (runOp st op).2.1) s

/-- Specification-side description of default retrieval: the declared
default when there is one, the absence marker `None` otherwise. -/
def declaredDefaultOrNone (field : FieldInfo) : MaybeUndef :=
  match field.default with
  | MaybeUndef.undef => MaybeUndef.val PyVal.none
  | MaybeUndef.val v => MaybeUndef.val v

/-- Decidable equality for delegated-call results, used to evaluate the
parse operations on concrete inputs. -/
def exceptDecEq {ε α : Type} [DecidableEq ε] [DecidableEq α] :
    DecidableEq (Except ε α) := fun a b =>
  match a, b with
  | Except.ok x, Except.ok y =>
    if h : x = y then Decidable.isTrue (by rw [h])
    else Decidable.isFalse (fun he => h (Except.ok.inj he))
  | Except.error x, Except.error y =>
    if h : x = y then Decidable.isTrue (by rw [h])
    else Decidable.isFalse (fun he => h (Except.error.inj he))
  | Except.ok _, Except.error _ => Decidable.isFalse (fun he => Except.noConfusion he)
  | Except.error _, Except.ok _ => Decidable.isFalse (fun he => Except.noConfusion he)

instance {ε α : Type} [DecidableEq ε] [DecidableEq α] : DecidableEq (Except ε α) :=
  exceptDecEq

/-- Every facade operation leaves the module state unchanged: no operation
assigns to the module-level flag. -/
theorem runOp_state (s : ModuleState) (op : FacadeOp) : (runOp s op).2.1 = s := by
  cases op <;> rfl

/-- Every facade operation writes nothing to standard output. -/
theorem runOp_trace (s : ModuleState) (op : FacadeOp) : (runOp s op).2.2 = [] := by
  cases op <;> rfl

/-- A sequence of facade operations leaves the module state unchanged. -/
theorem runOps_state (ops : List FacadeOp) (s : ModuleState) : runOps s ops = s := by
  induction ops generalizing s with
  | nil => rfl
  | cons op rest ih =>
    show runOps (runOp s op).2.1 rest = s
    rw [runOp_state, ih]

/-- A dump with no exclusion set and both exclusion flags off keeps every
field value. -/
theorem dumpEntries_trivial (m : ModelInst) : dumpEntries m [] false false = m.vals := by
  simp [dumpEntries]

/-- Looking a key up past a head entry with a different key skips the head. -/
theorem lookupKey_cons_ne {α : Type} (k : String) (v : α) (rest : List (String × α))
    (name : String) (h : ¬ k = name) :
    lookupKey ((k, v) :: rest) name = lookupKey rest name := by
  simp [lookupKey, h]

/-- Validation ignores an input entry whose key is none of the declared
field names. -/
theorem validateFields_ignore_head (n : String) (v : PyVal)
    (entries : List (String × PyVal)) :
    ∀ fields : List (String × FieldInfo), (∀ m ∈ fields.map Prod.fst, ¬ m = n) →
      validateFields ((n, v) :: entries) fields = validateFields entries fields := by
  intro fields
  induction fields with
  | nil => intro _; rfl
  | cons f rest ih =>
    intro h
    obtain ⟨m, fi⟩ := f
    have hm : ¬ n = m := fun he => h m (by simp) he.symm
    have hrest := ih (fun x hx => h x (by simp [hx]))
    simp only [validateFields, lookupKey, if_neg hm, hrest]

/-- Decoding the JSON object built from a mapping recovers the mapping. -/
theorem jsonEntriesToPy_pyToJson (l : List (String × PyVal)) :
    jsonEntriesToPy (l.map fun e => (e.1, pyToJson e.2)) = Option.some l := by
  induction l with
  | nil => rfl
  | cons e rest ih =>
    obtain ⟨k, v⟩ := e
    have hv : jsonToPy (pyToJson v) = Option.some v := by cases v <;> rfl
    simp only [List.map_cons, jsonEntriesToPy, hv, ih]

/-- Re-validating the values a successful validation produced succeeds with
the same values; all fields are then marked as set. Field names must be
distinct, as they are in the library's field mappings. -/
theorem validateFields_roundtrip :
    ∀ (fields : List (String × FieldInfo)) (entries vals : List (String × PyVal))
      (set : List String),
    (fields.map Prod.fst).Nodup →
    validateFields entries fields = Except.ok (vals, set) →
    validateFields vals fields = Except.ok (vals, fields.map Prod.fst) := by
  intro fields
  induction fields with
  | nil =>
    intro entries vals set _ h
    simp only [validateFields, Except.ok.injEq, Prod.mk.injEq] at h
    obtain ⟨h1, _⟩ := h
    subst h1
    rfl
  | cons f rest ih =>
    intro entries vals set hnd h
    obtain ⟨m, fi⟩ := f
    simp only [List.map_cons, List.nodup_cons] at hnd
    obtain ⟨hmem, hnd2⟩ := hnd
    have hne : ∀ x ∈ rest.map Prod.fst, ¬ x = m := fun x hx he => hmem (he ▸ hx)
    cases hl : lookupKey entries m with
    | some v =>
      cases hr : validateFields entries rest with
      | ok p =>
        obtain ⟨vs, set2⟩ := p
        simp only [validateFields, hl, hr, Except.ok.injEq, Prod.mk.injEq] at h
        obtain ⟨h1, _⟩ := h
        subst h1
        have hIH := ih entries vs set2 hnd2 hr
        have hskip := validateFields_ignore_head m v vs rest hne
        simp [validateFields, lookupKey, hskip, hIH]
      | error e =>
        simp only [validateFields, hl, hr] at h
        exact Except.noConfusion h
    | none =>
      cases hd : fi.default with
      | val d =>
        cases hr : validateFields entries rest with
        | ok p =>
          obtain ⟨vs, set2⟩ := p
          simp only [validateFields, hl, hd, hr, Except.ok.injEq, Prod.mk.injEq] at h
          obtain ⟨h1, _⟩ := h
          subst h1
          have hIH := ih entries vs set2 hnd2 hr
          have hskip := validateFields_ignore_head m d vs rest hne
          simp [validateFields, lookupKey, hskip, hIH]
        | error e =>
          simp only [validateFields, hl, hd, hr] at h
          exact Except.noConfusion h
      | undef =>
        simp only [validateFields, hl, hd] at h
        exact Except.noConfusion h

/-- Claim C1: for every field-metadata record and under both library
generations, `field_get_default` never returns the library's internal
undefined sentinel: it returns the declared default when there is one and
the absence marker `None` otherwise. -/
theorem field_get_default_no_sentinel (pydantic_v2 : Bool) (field : FieldInfo) :
    field_get_default pydantic_v2 field ≠ MaybeUndef.undef
      ∧ field_get_default pydantic_v2 field = declaredDefaultOrNone field := by
  obtain ⟨d⟩ := field
  cases d <;> cases pydantic_v2 <;>
    simp [field_get_default, declaredDefaultOrNone, PydanticV2.fieldInfo_get_default,
      PydanticV1.field_get_default]

/-- Claim C2: the flag is exactly "the version string starts with 2.", it
is the value the module state holds after initialisation, and running any
sequence of facade operations leaves the module state (hence the flag)
unchanged. -/
theorem pydantic_v2_flag_constant (version : String) (ops : List FacadeOp) :
    (PYDANTIC_V2 version = true ↔ ∃ rest, "2.".data ++ rest = version.data)
      ∧ (moduleInit version).1.pydantic_v2 = PYDANTIC_V2 version
      ∧ runOps (moduleInit version).1 ops = (moduleInit version).1 :=
  ⟨List.isPrefixOf_iff_prefix, rfl, runOps_state ops (moduleInit version).1⟩

/-- Claim C3: an instance produced by `model_parse`, dumped with
`model_dump` (no exclusions) and re-parsed with `model_parse`, yields an
instance with exactly the same field values, under either generation.
Field names of a model are distinct, as in the library's field mappings. -/
theorem parse_dump_roundtrip (pydantic_v2 : Bool) (M : ModelType) (value : PyObj)
    (inst : ModelInst) (hnd : (M.fields.map Prod.fst).Nodup)
    (h : model_parse pydantic_v2 M value = Except.ok inst) :
    model_parse pydantic_v2 M (PyObj.dict (model_dump pydantic_v2 inst [] false false)) =
      Except.ok { type := M, vals := inst.vals, fieldsSet := M.fields.map Prod.fst } := by
  have hv : validateObj M value = Except.ok inst := by
    cases pydantic_v2 <;>
      simpa [model_parse, PydanticV2.model_validate, PydanticV1.parse_obj] using h
  have hdump : model_dump pydantic_v2 inst [] false false = inst.vals := by
    cases pydantic_v2 <;>
      simp [model_dump, PydanticV2.model_dump, PydanticV1.dict, dumpEntries_trivial]
  cases value with
  | scalar v => exact Except.noConfusion (hv.symm.trans rfl)
  | dict entries =>
    cases hf : validateFields entries M.fields with
    | ok p =>
      obtain ⟨vs, set⟩ := p
      have hinst : inst = { type := M, vals := vs, fieldsSet := set } := by
        simp only [validateObj, hf, Except.ok.injEq] at hv
        exact hv.symm
      have hvals : inst.vals = vs := by rw [hinst]
      have hrt := validateFields_roundtrip M.fields entries vs set hnd hf
      rw [hdump, hvals]
      cases pydantic_v2 <;>
        simp [model_parse, PydanticV2.model_validate, PydanticV1.parse_obj,
          validateObj, hrt, hvals]
    | error e =>
      rw [validateObj, hf] at hv
      exact Except.noConfusion hv

/-- Sample model for concrete evaluations: one required field "a", one
optional field "b" with default 1. -/
def sampleModel : ModelType :=
  ⟨[("a", ⟨MaybeUndef.undef⟩), ("b", ⟨MaybeUndef.val (PyVal.int 1)⟩)]⟩

/-- Sample input setting only the required field. -/
def sampleInput : PyObj :=
  PyObj.dict [("a", PyVal.int 5)]

/-- The instance `sampleInput` parses to against `sampleModel`. -/
def sampleInst : ModelInst :=
  ⟨sampleModel, [("a", PyVal.int 5), ("b", PyVal.int 1)], ["a"]⟩

/-- Witness for claim C3 at a concrete model, input and instance. -/
theorem parse_dump_roundtrip_witness :
    model_parse true sampleModel (PyObj.dict (model_dump true sampleInst [] false false)) =
      Except.ok ⟨sampleModel, sampleInst.vals, sampleModel.fields.map Prod.fst⟩ :=
  parse_dump_roundtrip true sampleModel sampleInput sampleInst (by decide) (by decide)

/-- Claim C4 counterexample: for the one-field model with default 0, the
instance holding 5, and the exclusion set containing that field, dumping
to JSON (which takes no exclusion options) then parsing differs from
dumping to a mapping with those exclusion options then parsing. -/
theorem json_dict_path_counterexample :
    model_parse_json true ⟨[("a", ⟨MaybeUndef.val (PyVal.int 0)⟩)]⟩
        (model_json true ⟨⟨[("a", ⟨MaybeUndef.val (PyVal.int 0)⟩)]⟩,
          [("a", PyVal.int 5)], ["a"]⟩ Option.none)
      ≠ model_parse true ⟨[("a", ⟨MaybeUndef.val (PyVal.int 0)⟩)]⟩
        (PyObj.dict (model_dump true ⟨⟨[("a", ⟨MaybeUndef.val (PyVal.int 0)⟩)]⟩,
          [("a", PyVal.int 5)], ["a"]⟩ ["a"] false false)) := by
  decide

/-- Claim C4 as amended: with the default exclusion options (no exclusion
set, both flags off — the only options `model_json` can forward), dumping
to JSON then parsing from JSON gives exactly the same result as dumping to
a mapping then parsing from the mapping, for every target model, instance,
indentation and generation. -/
theorem json_path_eq_dict_path (pydantic_v2 : Bool) (M : ModelType) (inst : ModelInst)
    (indent : Option Nat) :
    model_parse_json pydantic_v2 M (model_json pydantic_v2 inst indent) =
      model_parse pydantic_v2 M (PyObj.dict (model_dump pydantic_v2 inst [] false false)) := by
  cases pydantic_v2 <;>
    simp [model_parse_json, model_json, model_parse, model_dump,
      PydanticV2.model_validate_json, PydanticV2.model_dump_json, PydanticV2.model_validate,
      PydanticV2.model_dump, PydanticV1.parse_raw, PydanticV1.json, PydanticV1.parse_obj,
      PydanticV1.dict, jsonEntriesToPy_pyToJson]

/-- Claim C5: in a model with a required field and an optional field with a
declared default, introspection reports required=true for the first,
required=false for the second, and the second's correct default, under
both library generations. -/
theorem two_field_introspection (pydantic_v2 : Bool) (n1 n2 : String)
    (f1 f2 : FieldInfo) (d : PyVal)
    (h1 : f1.default = MaybeUndef.undef) (h2 : f2.default = MaybeUndef.val d) :
    get_model_fields pydantic_v2 ⟨[(n1, f1), (n2, f2)]⟩ = [(n1, f1), (n2, f2)]
      ∧ field_is_required pydantic_v2 f1 = true
      ∧ field_is_required pydantic_v2 f2 = false
      ∧ field_get_default pydantic_v2 f2 = MaybeUndef.val d := by
  cases pydantic_v2 <;>
    simp [get_model_fields, PydanticV2.model_fields, PydanticV1.fields,
      field_is_required, PydanticV2.fieldInfo_is_required, PydanticV1.field_required,
      field_get_default, PydanticV2.fieldInfo_get_default, PydanticV1.field_get_default,
      h1, h2]

/-- Witness for claim C5 at a concrete two-field model. -/
theorem two_field_introspection_witness :
    get_model_fields false ⟨[("a", ⟨MaybeUndef.undef⟩), ("b", ⟨MaybeUndef.val (PyVal.int 1)⟩)]⟩
        = [("a", ⟨MaybeUndef.undef⟩), ("b", ⟨MaybeUndef.val (PyVal.int 1)⟩)]
      ∧ field_is_required false ⟨MaybeUndef.undef⟩ = true
      ∧ field_is_required false ⟨MaybeUndef.val (PyVal.int 1)⟩ = false
      ∧ field_get_default false ⟨MaybeUndef.val (PyVal.int 1)⟩ = MaybeUndef.val (PyVal.int 1) :=
  two_field_introspection false "a" "b" ⟨MaybeUndef.undef⟩ ⟨MaybeUndef.val (PyVal.int 1)⟩
    (PyVal.int 1) rfl rfl

/-- Claim C6: the parse operations are pure pass-throughs: on every input
each facade operation returns exactly what the delegated underlying-library
call returns, and it raises an error exactly when, and exactly which, the
delegated call raises — the facade adds no error of its own. -/
theorem facade_error_passthrough (pydantic_v2 : Bool) (M : ModelType) (value : PyObj)
    (data : Json) (e : PErr) :
    model_parse pydantic_v2 M value =
        (if pydantic_v2 then PydanticV2.model_validate M value
         else PydanticV1.parse_obj M value)
      ∧ model_parse_json pydantic_v2 M data =
        (if pydantic_v2 then PydanticV2.model_validate_json M data
         else PydanticV1.parse_raw M data)
      ∧ parse_obj pydantic_v2 M value =
        (if pydantic_v2 then PydanticV2.model_validate M value
         else PydanticV1.parse_obj M value)
      ∧ (model_parse pydantic_v2 M value = Except.error e ↔
          (if pydantic_v2 then PydanticV2.model_validate M value
           else PydanticV1.parse_obj M value) = Except.error e) := by
  exact ⟨rfl, rfl, rfl, Iff.rfl⟩

/-- Claim C7 counterexample: module initialisation writes a line to
standard output (the version-validation call prints), so the component is
not free of I/O. -/
theorem module_init_writes_output :
    (moduleInit "2.5.0").2 = ["Pydantic v2 is detected and in use."]
      ∧ (moduleInit "2.5.0").2 ≠ ([] : List String) := by
  constructor
  · decide
  · decide

/-- Claim C7 as amended: module initialisation writes exactly one
diagnostic line to standard output (through validate_pydantic_version);
apart from that, no facade operation reads or writes anything. -/
theorem facade_io_trace (version : String) (s : ModuleState) (op : FacadeOp) :
    (moduleInit version).2 =
        [if PYDANTIC_V2 version then "Pydantic v2 is detected and in use."
         else "Pydantic v1 is detected and in use."]
      ∧ (runOp s op).2.2 = [] :=
  ⟨rfl, runOp_trace s op⟩

/-- Claim C8: for every two-field model, schema generation returns a
mapping whose "properties" entry is an object naming both declared fields,
under either generation. -/
theorem schema_properties_names_fields (pydantic_v2 : Bool) (n1 n2 : String)
    (f1 f2 : FieldInfo) :
    ∃ props, lookupKey (model_json_schema pydantic_v2 ⟨[(n1, f1), (n2, f2)]⟩) "properties"
        = Option.some (Json.obj props)
      ∧ n1 ∈ props.map Prod.fst ∧ n2 ∈ props.map Prod.fst := by
  refine ⟨[(n1, Json.obj []), (n2, Json.obj [])], ?_, by simp, by simp⟩
  cases pydantic_v2 <;>
    simp [model_json_schema, PydanticV2.model_json_schema, PydanticV1.schema, lookupKey]

/-- Claim C9: whichever implementation the import selects, the descriptor
computes the value on the first access of an instance, stores it, and every
later access returns the stored value with no recomputation: after any
number of accesses the function has run exactly once; the standard-library
and fallback implementations are the selected ones and are equal. -/
theorem cached_property_caches {σ α : Type} (stdlibAvailable : Bool) (func : σ → α)
    (inst : σ) (v : α) (n : Nat) :
    cached_property stdlibAvailable func inst Option.none
        = (func inst, Option.some (func inst), 1)
      ∧ cached_property stdlibAvailable func inst (Option.some v) = (v, Option.some v, 0)
      ∧ accessTimes stdlibAvailable func inst (n + 1) = (Option.some (func inst), 1)
      ∧ cached_property true = (stdlibCachedGet : (σ → α) → σ → Option α → α × Option α × Nat)
      ∧ cached_property false = (fallbackCachedGet : (σ → α) → σ → Option α → α × Option α × Nat)
      ∧ (stdlibCachedGet : (σ → α) → σ → Option α → α × Option α × Nat) = fallbackCachedGet := by
  have hfirst : cached_property stdlibAvailable func inst Option.none
      = (func inst, Option.some (func inst), 1) := by
    cases stdlibAvailable <;> rfl
  have hagain : cached_property stdlibAvailable func inst (Option.some v)
      = (v, Option.some v, 0) := by
    cases stdlibAvailable <;> rfl
  refine ⟨hfirst, hagain, ?_, rfl, rfl, rfl⟩
  induction n with
  | zero => simp [accessTimes, hfirst]
  | succ k ih =>
    have hx : cached_property stdlibAvailable func inst (Option.some (func inst))
        = (func inst, Option.some (func inst), 0) := by
      cases stdlibAvailable <;> rfl
    rw [accessTimes, ih]
    simp [hx]

/-- Claim C10: `parse_obj` and `model_parse` are extensionally equal: both
dispatch the same way on the flag, delegate to the same underlying method
of each generation, and return (or raise) the same thing on every input. -/
theorem parse_obj_eq_model_parse (pydantic_v2 : Bool) (M : ModelType) (value : PyObj) :
    parse_obj pydantic_v2 M value = model_parse pydantic_v2 M value
      ∧ parse_obj true M value = PydanticV2.model_validate M value
      ∧ parse_obj false M value = PydanticV1.parse_obj M value
      ∧ model_parse true M value = PydanticV2.model_validate M value
      ∧ model_parse false M value = PydanticV1.parse_obj M value :=
  ⟨rfl, rfl, rfl, rfl, rfl⟩

end AiCompat
